import Mathlib

/-!
# Verification of the solar roof-gutter estimator (backend/services/solar.py)

Shallow embedding of the numeric/geometric logic of `solar.py`:
the footprint polygon perimeter calculator (`calculate_building_perimeter`),
the building-insights segment aggregator (`get_google_solar_data`), the
approximate state-bounds lookup (`get_state_from_approximate_bounds`), and
the cached top-level estimator (`get_best_free_building_perimeter`).

External collaborators (HTTP calls, shapely validity testing/repair, the
pyproj projection itself) are modelled as oracle inputs; every check,
conversion, rounding step and result dictionary built by the Python code is
embedded explicitly.  Numbers are exact rationals (`ℚ`) where the code does
pure field arithmetic, and reals (`ℝ`) where the code takes square roots.
-/

namespace Solar

/-! ## Result values: JSON-like dictionaries returned by the service -/

/-- A GeoJSON geometry as consumed by `calculate_building_perimeter`:
a `type` tag and a list of rings, each ring a list of `(lng, lat)` pairs. -/
structure Geom where
  gtype : String
  coordinates : List (List (ℚ × ℚ))
deriving DecidableEq

/-- The projected CRS chosen by the calculator: `EPSG:326{zone}` (northern
hemisphere), `EPSG:327{zone}` (southern), or the `EPSG:3857` fallback. -/
inductive EPSG where
  | utmNorth (zone : ℕ)
  | utmSouth (zone : ℕ)
  | webMercator
deriving DecidableEq

/-- A JSON-ish value appearing in a result dictionary.  `num` carries the
exact rationals of the footprint path; `rnum` carries reals for the
insights path (whose perimeters involve `math.sqrt`). -/
inductive Val where
  | num (q : ℚ)
  | rnum (x : ℝ)
  | str (s : String)
  | epsg (e : EPSG)
  | geo (g : Geom)
  | vlist (l : List Val)
  | dict (d : List (String × Val))

/-- A Python dict result, modelled as an insertion-ordered association list. -/
abbrev Dict := List (String × Val)

/-- Association-list lookup, i.e. Python `d.get(key)` / `d[key]`. -/
def alookup {α : Type} : List (String × α) → String → Option α
  | [], _ => none
  | kv :: t, key => if key = kv.1 then some kv.2 else alookup t key

/-- Python `key in d` on a dict. -/
def hasKey {α : Type} (d : List (String × α)) (k : String) : Bool :=
  d.any (fun kv => kv.1 == k)

/-- Python `"error" in result`. -/
def hasError (d : Dict) : Bool := hasKey d "error"

/-- The measurement fields common to both successful result shapes. -/
def measurementKeys : List String :=
  ["roof_perimeter_feet", "roof_perimeter_meters", "roof_area_feet",
   "roof_area_meters", "estimated_cost_usd"]

/-- All measurement fields are present. -/
def hasAllMeas (d : Dict) : Bool := measurementKeys.all (hasKey d)

/-- Some measurement field is present. -/
def hasAnyMeas (d : Dict) : Bool := measurementKeys.any (hasKey d)

/-- A result is success-shaped (all measurement fields, no `"error"` key) or
error-shaped (an `"error"` key and no measurement field), never both. -/
def shapeOK (d : Dict) : Prop :=
  (hasAllMeas d = true ∧ hasError d = false) ∨
  (hasError d = true ∧ hasAnyMeas d = false)

/-! ## Python numeric builtins -/

/-- Python `round` to an integer: nearest, ties to even (banker's rounding). -/
def roundHalfEven (q : ℚ) : ℤ :=
  if q - ⌊q⌋ < 1/2 then ⌊q⌋
  else if 1/2 < q - ⌊q⌋ then ⌊q⌋ + 1
  else if ⌊q⌋ % 2 = 0 then ⌊q⌋ else ⌊q⌋ + 1

/-- Python `round(x, n)` on exact rationals. -/
def pyRound (q : ℚ) (n : ℕ) : ℚ := (roundHalfEven (q * 10 ^ n) : ℚ) / 10 ^ n

/-- Python `int(x)`: truncation toward zero. -/
def pyInt (q : ℚ) : ℤ := if 0 ≤ q then ⌊q⌋ else ⌈q⌉

/-- Python `round` on reals, nearest / ties to even. -/
noncomputable def roundHalfEvenR (x : ℝ) : ℤ :=
  if x - ⌊x⌋ < 1/2 then ⌊x⌋
  else if 1/2 < x - ⌊x⌋ then ⌊x⌋ + 1
  else if ⌊x⌋ % 2 = 0 then ⌊x⌋ else ⌊x⌋ + 1

/-- Python `round(x, n)` on reals. -/
noncomputable def pyRoundR (x : ℝ) (n : ℕ) : ℝ := (roundHalfEvenR (x * 10 ^ n) : ℝ) / 10 ^ n

/-- `METERS_TO_FEET = 3.28084` (solar.py lines 375 and 506). -/
def METERS_TO_FEET : ℚ := 3.28084

/-- `cost_per_foot = 6.10` (solar.py lines 382 and 511). -/
def cost_per_foot : ℚ := 6.10

/-! ## UTM zone / projection selection (solar.py lines 334-350) -/

/-- The projection selection of `calculate_building_perimeter` given the
polygon centroid: `utm_zone = int((centroid.x + 180) / 6) + 1`; a zone
outside `1..60` raises, and the surrounding `except` falls back to Web
Mercator (`EPSG:3857`); otherwise `EPSG:326{zone}` when `centroid.y >= 0`,
else `EPSG:327{zone}`.  (A `pyproj` failure for a valid zone would take the
same fallback; the transformer itself is external and assumed to succeed on
valid EPSG codes.) -/
def utmSelect (lon lat : ℚ) : EPSG :=
  let z : ℤ := pyInt ((lon + 180) / 6) + 1
  if z < 1 ∨ 60 < z then EPSG.webMercator
  else if 0 ≤ lat then EPSG.utmNorth z.toNat
  else EPSG.utmSouth z.toNat

/-- The spec's wording of the selection, for refinement comparison only:
the computed zone *clamped* into the range 1–60 (so an out-of-range zone is
forced to a boundary zone instead of triggering the fallback). -/
def utmSelectClamped (lon lat : ℚ) : EPSG :=
  let z : ℤ := max 1 (min 60 (pyInt ((lon + 180) / 6) + 1))
  if 0 ≤ lat then EPSG.utmNorth z.toNat else EPSG.utmSouth z.toNat

/-! ## Approximate state bounds lookup (solar.py lines 268-291) -/

/-- The static state bounding boxes, in the Python dict's insertion order.
Each entry is `(state, (lat_lo, lat_hi), (lng_lo, lng_hi))`. -/
def state_bounds : List (String × (ℚ × ℚ) × (ℚ × ℚ)) :=
  [("NY", (40.5, 45.0), (-79.8, -71.8)),
   ("CA", (32.5, 42.0), (-124.5, -114.1)),
   ("TX", (26.0, 36.7), (-106.6, -93.5)),
   ("FL", (24.4, 31.0), (-87.6, -80.0)),
   ("IL", (36.9, 42.5), (-91.5, -87.5)),
   ("PA", (39.7, 42.3), (-80.5, -74.7)),
   ("OH", (38.4, 42.0), (-84.8, -80.5)),
   ("GA", (30.3, 35.0), (-85.6, -80.8)),
   ("NC", (33.8, 36.6), (-84.3, -75.5)),
   ("MI", (41.7, 48.3), (-90.4, -82.4))]

/-- `bounds["lat"][0] <= lat <= bounds["lat"][1] and bounds["lng"][0] <= lng
<= bounds["lng"][1]`. -/
def inBounds (b : (ℚ × ℚ) × (ℚ × ℚ)) (lat lng : ℚ) : Bool :=
  decide (b.1.1 ≤ lat) && decide (lat ≤ b.1.2) &&
  decide (b.2.1 ≤ lng) && decide (lng ≤ b.2.2)

/-- `get_state_from_approximate_bounds`: first state (in dict order) whose
box contains the point, else `"Unknown"`. -/
def get_state_from_approximate_bounds (lat lng : ℚ) : String :=
  match state_bounds.find? (fun sb => inBounds sb.2 lat lng) with
  | some sb => sb.1
  | none => "Unknown"

/-! ## Footprint polygon perimeter calculator (solar.py lines 293-404) -/

/-- Outcomes of the external geometry collaborators used by
`calculate_building_perimeter`: shapely validity testing/repair, the shapely
centroid, and the perimeter/area of the pyproj-projected polygon.  These are
oracle inputs: the embedding is faithful to the control flow and arithmetic
of the Python code, with the shapely/pyproj internals abstracted. -/
structure Oracle where
  isValidRaw : Bool
  madeValidOk : Bool
  centroidLon : ℚ
  centroidLat : ℚ
  projPerimeter : ℚ
  projArea : ℚ

/-- `polygon.bounds`: `(min lng, min lat, max lng, max lat)` over the ring
coordinates (shapely bounds of a polygon are the coordinate extremes). -/
def boundsOf : List (ℚ × ℚ) → ℚ × ℚ × ℚ × ℚ
  | [] => (0, 0, 0, 0)
  | p :: t =>
    t.foldl (fun b q => (min b.1 q.1, min b.2.1 q.2, max b.2.2.1 q.1, max b.2.2.2 q.2))
      (p.1, p.2, p.1, p.2)

/-- `calculate_building_perimeter(footprint_geometry)`.  Error strings keep
the fixed message text; numeric interpolations in the Python messages are
elided.  The generic `except` wrapper surfaces as the wrapped index error
for an empty coordinate list. -/
def calculate_building_perimeter (g : Option Geom) (o : Oracle) : Dict :=
  match g with
  | none => [("error", Val.str "Invalid footprint geometry")]
  | some geom =>
    if geom.gtype ≠ "Polygon" then [("error", Val.str "Invalid footprint geometry")]
    else
      match geom.coordinates with
      | [] => [("error", Val.str "Failed to calculate perimeter: list index out of range")]
      | coords :: _ =>
        if coords.length = 0 then
          [("error", Val.str "Failed to calculate perimeter: list index out of range")]
        else if coords.length < 3 then
          [("error", Val.str "Invalid polygon: insufficient coordinates")]
        else
          let b := boundsOf coords
          if o.isValidRaw = false ∧ o.madeValidOk = false then
            [("error", Val.str "Could not fix invalid polygon")]
          else if 1 < |b.2.2.1 - b.1| ∨ 1 < |b.2.2.2 - b.2.1| then
            [("error", Val.str "Polygon bounds too large - possible coordinate error")]
          else
            let utm_epsg := utmSelect o.centroidLon o.centroidLat
            let perimeter_meters := o.projPerimeter
            let area_square_meters := o.projArea
            if 5000 < perimeter_meters then
              [("error", Val.str "Unrealistic perimeter (>5km). Possible projection error.")]
            else if 10000 < area_square_meters then
              [("error", Val.str "Unrealistic area (>10,000m2). Possible projection error.")]
            else if perimeter_meters < 1 then
              [("error", Val.str "Unrealistic perimeter (<1m). Possible projection error.")]
            else if area_square_meters < 1 then
              [("error", Val.str "Unrealistic area (<1m2). Possible projection error.")]
            else
              let perimeter_feet := perimeter_meters * METERS_TO_FEET
              let area_square_feet := area_square_meters * METERS_TO_FEET ^ 2
              let estimated_cost := perimeter_feet * cost_per_foot
              [("roof_perimeter_feet", Val.num (pyRound perimeter_feet 1)),
               ("roof_perimeter_meters", Val.num (pyRound perimeter_meters 1)),
               ("roof_area_feet", Val.num (pyRound area_square_feet 1)),
               ("roof_area_meters", Val.num (pyRound area_square_meters 1)),
               ("estimated_cost_usd", Val.num (pyRound estimated_cost 2)),
               ("cost_per_foot", Val.num cost_per_foot),
               ("building_footprint", Val.geo geom),
               ("utm_zone", Val.epsg utm_epsg),
               ("calculation_method", Val.str "precise_geodetic"),
               ("debug_info", Val.dict
                 [("centroid_lng", Val.num (pyRound o.centroidLon 6)),
                  ("centroid_lat", Val.num (pyRound o.centroidLat 6)),
                  ("bounds", Val.vlist
                    [Val.num (pyRound b.1 6), Val.num (pyRound b.2.1 6),
                     Val.num (pyRound b.2.2.1 6), Val.num (pyRound b.2.2.2 6)]),
                  ("coordinate_count", Val.num coords.length)])]

/-! ## Building-insights segment aggregator (solar.py lines 453-527) -/

/-- One entry of `roofSegmentStats`: whether `"pitchDegrees"` is present and
the (optional) `groundAreaMeters2` value. -/
structure Seg where
  hasPitch : Bool
  groundAreaMeters2 : Option ℚ

/-- `total_area` accumulated by the loop at solar.py lines 491-495: every
segment carrying `pitchDegrees` adds `segment.get("groundAreaMeters2", 0)`. -/
def totArea : List Seg → ℚ
  | [] => 0
  | s :: t => (if s.hasPitch = true then s.groundAreaMeters2.getD 0 else 0) + totArea t

/-- `total_perimeter` accumulated at solar.py lines 500-503: a segment
carrying `pitchDegrees` whose ground area is positive adds
`4 * math.sqrt(segment_area)`. -/
noncomputable def totPerim : List Seg → ℝ
  | [] => 0
  | s :: t =>
    (if s.hasPitch = true ∧ 0 < s.groundAreaMeters2.getD 0 then
      4 * Real.sqrt ((s.groundAreaMeters2.getD 0 : ℚ) : ℝ)
    else 0) + totPerim t

/-- `get_google_solar_data(address)`.  The geocoding call, the HTTP status
of the Solar API response and the presence of its `"name"` field are oracle
inputs; the segment aggregation, unit conversion, costing and result
dictionary are embedded from the code.  Note the Python truthiness test
`if not lat or not lng` also rejects a geocode of exactly 0. -/
noncomputable def get_google_solar_data (address : String) (geocode : Option (ℚ × ℚ))
    (status : ℤ) (hasName : Bool) (segs : List Seg) : Dict :=
  match geocode with
  | none => [("error", Val.str "Failed to geocode address")]
  | some (lat, lng) =>
    if lat = 0 ∨ lng = 0 then [("error", Val.str "Failed to geocode address")]
    else if status ≠ 200 then
      [("error", Val.str ("Google Solar API error: " ++ toString status))]
    else if hasName = false then [("error", Val.str "No building data found")]
    else
      let total_perimeter := totPerim segs
      let total_area := ((totArea segs : ℚ) : ℝ)
      let perimeter_feet := total_perimeter * ((METERS_TO_FEET : ℚ) : ℝ)
      let area_square_feet := total_area * ((METERS_TO_FEET : ℚ) : ℝ) ^ 2
      let estimated_cost := perimeter_feet * ((cost_per_foot : ℚ) : ℝ)
      [("roof_perimeter_feet", Val.rnum (pyRoundR perimeter_feet 1)),
       ("roof_perimeter_meters", Val.rnum (pyRoundR total_perimeter 1)),
       ("roof_area_feet", Val.rnum (pyRoundR area_square_feet 1)),
       ("roof_area_meters", Val.rnum (pyRoundR total_area 1)),
       ("estimated_cost_usd", Val.rnum (pyRoundR estimated_cost 2)),
       ("cost_per_foot", Val.num cost_per_foot),
       ("method", Val.str "google_solar_api"),
       ("accuracy", Val.str "medium"),
       ("address", Val.str address)]

/-! ## Top-level estimator with cache (solar.py lines 14-22 and 530-578) -/

/-- The two method attempts as external effects: for an address, the result
dictionary `get_building_perimeter_microsoft` would return and the one
`get_google_solar_data` would return.  Invoking one models the whole set of
network calls that method performs. -/
structure Env where
  microsoft : String → Dict
  google : String → Dict

/-- The fallback chain of `get_best_free_building_perimeter` after a cache
miss: try Microsoft footprints; on an error-shaped result try Google Solar;
if both fail, build the aggregate error whose `"details"` carries both
failure results.  Returns the result, the updated cache, and the number of
method attempts performed (each standing for that method's network calls). -/
def attemptMethods (env : Env) (cache : List (String × Dict)) (address : String) :
    Dict × List (String × Dict) × ℕ :=
  let microsoft_result := env.microsoft address
  if hasError microsoft_result = false then
    (microsoft_result, (address, microsoft_result) :: cache, 1)
  else
    let google_result := env.google address
    if hasError google_result = false then
      (google_result, (address, google_result) :: cache, 2)
    else
      let final_result : Dict :=
        [("error", Val.str "All free methods failed"),
         ("details", Val.dict
           [("microsoft", Val.dict microsoft_result),
            ("google_solar", Val.dict google_result)])]
      (final_result, (address, final_result) :: cache, 2)

/-- `get_best_free_building_perimeter(address)` with the process-wide
`_result_cache` made explicit.  A cached value is returned only when truthy
(Python `if cached_result:`), i.e. a non-empty dict. -/
def get_best_free_building_perimeter (env : Env) (cache : List (String × Dict))
    (address : String) : Dict × List (String × Dict) × ℕ :=
  match alookup cache address with
  | some cached_result =>
    if cached_result.isEmpty then attemptMethods env cache address
    else (cached_result, cache, 0)
  | none => attemptMethods env cache address

/-! ## Ring geometry: shapely length/area of the (projected) exterior ring -/

/-- Consecutive vertex pairs of a cyclic ring `[v0, …, v(n-1)]`:
`(v0,v1), …, (v(n-2),v(n-1)), (v(n-1),v0)`.  Shapely's `length` and `area`
of the polygon built from a ring are sums over exactly these pairs. -/
def cyclePairs {α : Type} (l : List α) : List (α × α) := l.zip (l.rotate 1)

/-- Sum of an edge function over the cyclic consecutive pairs of a ring. -/
def cycleSum {α M : Type} [AddCommMonoid M] (f : α → α → M) (l : List α) : M :=
  ((cyclePairs l).map (fun p => f p.1 p.2)).sum

/-- Euclidean length of one ring edge (in the projected plane). -/
noncomputable def segLen (a b : ℚ × ℚ) : ℝ :=
  Real.sqrt ((((a.1 - b.1 : ℚ) : ℝ)) ^ 2 + (((a.2 - b.2 : ℚ) : ℝ)) ^ 2)

/-- `polygon_projected.length`: the perimeter of the closed ring. -/
noncomputable def ringPerimeter (l : List (ℚ × ℚ)) : ℝ := cycleSum segLen l

/-- One shoelace cross term. -/
def cross (a b : ℚ × ℚ) : ℚ := a.1 * b.2 - b.1 * a.2

/-- Twice the signed shoelace area of the ring. -/
def shoelace (l : List (ℚ × ℚ)) : ℚ := cycleSum cross l

/-- `polygon_projected.area`: shapely areas are unsigned. -/
def ringArea (l : List (ℚ × ℚ)) : ℚ := |shoelace l| / 2

/-- The pre-projection validation gate of `calculate_building_perimeter`:
geometry is a polygon, a non-degenerate ring (≥ 3 vertices), shapely-valid
or repairable, with bounds at most one degree across in each axis. -/
def passesPreChecks (geom : Geom) (o : Oracle) : Prop :=
  geom.gtype = "Polygon" ∧
  geom.coordinates ≠ [] ∧
  3 ≤ (geom.coordinates.headD []).length ∧
  (o.isValidRaw = true ∨ o.madeValidOk = true) ∧
  |(boundsOf (geom.coordinates.headD [])).2.2.1 - (boundsOf (geom.coordinates.headD [])).1| ≤ 1 ∧
  |(boundsOf (geom.coordinates.headD [])).2.2.2 - (boundsOf (geom.coordinates.headD [])).2.1| ≤ 1

/-! ## Helper lemmas -/

lemma getElem_idx_congr {α : Type} (l : List α) {i j : ℕ} (h : i = j) (hi : i < l.length) :
    l.get ⟨i, hi⟩ = l.get ⟨j, h ▸ hi⟩ := by subst h; rfl

lemma cyclePairs_rotate {α : Type} (l : List α) (k : ℕ) :
    cyclePairs (l.rotate k) = (cyclePairs l).rotate k := by
  apply List.ext_getElem
  · simp [cyclePairs]
  · intro i h1 h2
    simp only [cyclePairs, List.getElem_zip, List.getElem_rotate, List.rotate_rotate,
      List.length_zip, List.length_rotate, Nat.min_self]
    refine Prod.ext ?_ ?_
    · simp
    · simp only []
      apply getElem_idx_congr
      rw [Nat.mod_add_mod]
      ring_nf

lemma rev_idx (n i : ℕ) (h : i < n) : ((n - 1 - (i + 1) % n) + 1) % n = n - 1 - i := by
  rcases Nat.lt_or_ge (i + 1) n with h1 | h1
  · rw [Nat.mod_eq_of_lt h1, Nat.mod_eq_of_lt (by omega)]
    omega
  · have hn : i + 1 = n := by omega
    subst hn
    simp [Nat.mod_self]

lemma cyclePairs_reverse {α : Type} (l : List α) :
    cyclePairs l.reverse = (((cyclePairs l).map Prod.swap).reverse).rotate 1 := by
  apply List.ext_getElem
  · simp [cyclePairs]
  · intro i h1 h2
    simp only [cyclePairs, List.getElem_zip, List.getElem_rotate, List.getElem_reverse,
      List.getElem_map, List.length_zip, List.length_rotate, List.length_reverse,
      List.length_map, Nat.min_self, Prod.swap_prod_mk]
    refine Prod.ext ?_ ?_
    · simp only []
      apply getElem_idx_congr
      exact (rev_idx l.length i (by simpa [cyclePairs] using h1)).symm
    · simp

lemma cycleSum_rotate {α M : Type} [AddCommMonoid M] (f : α → α → M) (l : List α) (k : ℕ) :
    cycleSum f (l.rotate k) = cycleSum f l := by
  unfold cycleSum
  rw [cyclePairs_rotate]
  exact List.Perm.sum_eq (List.Perm.map _ (List.rotate_perm _ _))

lemma cycleSum_reverse_of_symm {α M : Type} [AddCommMonoid M] (f : α → α → M)
    (hf : ∀ a b, f b a = f a b) (l : List α) :
    cycleSum f l.reverse = cycleSum f l := by
  unfold cycleSum
  rw [cyclePairs_reverse, List.map_rotate]
  refine ((List.rotate_perm _ _).sum_eq).trans ?_
  rw [List.map_reverse, List.sum_reverse, List.map_map]
  have h : ((fun p : α × α => f p.1 p.2) ∘ Prod.swap) = fun p : α × α => f p.1 p.2 := by
    funext p
    exact hf p.1 p.2
  rw [h]

lemma sum_map_negf {α M : Type} [AddCommGroup M] (g : α → M) (l : List α) :
    (l.map (fun x => -(g x))).sum = -(l.map g).sum := by
  induction l with
  | nil => simp
  | cons a t ih => simp [ih]; abel

lemma cycleSum_reverse_of_anti {α M : Type} [AddCommGroup M] (f : α → α → M)
    (hf : ∀ a b, f b a = -(f a b)) (l : List α) :
    cycleSum f l.reverse = -(cycleSum f l) := by
  unfold cycleSum
  rw [cyclePairs_reverse, List.map_rotate]
  refine ((List.rotate_perm _ _).sum_eq).trans ?_
  rw [List.map_reverse, List.sum_reverse, List.map_map]
  have h : ((fun p : α × α => f p.1 p.2) ∘ Prod.swap) = fun p : α × α => -(f p.1 p.2) := by
    funext p
    exact hf p.1 p.2
  rw [h, sum_map_negf]

lemma segLen_symm (a b : ℚ × ℚ) : segLen b a = segLen a b := by
  unfold segLen
  push_cast
  ring_nf

lemma cross_antisymm (a b : ℚ × ℚ) : cross b a = -(cross a b) := by
  unfold cross
  ring

lemma inBounds_iff (b : (ℚ × ℚ) × (ℚ × ℚ)) (lat lng : ℚ) :
    inBounds b lat lng = true ↔
      (b.1.1 ≤ lat ∧ lat ≤ b.1.2 ∧ b.2.1 ≤ lng ∧ lng ≤ b.2.2) := by
  simp [inBounds, and_assoc]

lemma inBounds_false_iff (b : (ℚ × ℚ) × (ℚ × ℚ)) (lat lng : ℚ) :
    inBounds b lat lng = false ↔
      ¬(b.1.1 ≤ lat ∧ lat ≤ b.1.2 ∧ b.2.1 ≤ lng ∧ lng ≤ b.2.2) := by
  rw [← inBounds_iff]
  simp

lemma find?_append_first {α : Type} (p : α → Bool) (l₁ : List α) (x : α) (l₂ : List α)
    (h1 : ∀ y ∈ l₁, p y = false) (hx : p x = true) :
    (l₁ ++ x :: l₂).find? p = some x := by
  induction l₁ with
  | nil => simp [List.find?_cons_of_pos, hx]
  | cons a t ih =>
    have ha := h1 a (by simp)
    rw [List.cons_append, List.find?_cons_of_neg _ (by simp [ha])]
    exact ih (fun y hy => h1 y (by simp [hy]))

lemma hasError_calcSuccess (v1 v2 v3 v4 v5 v6 v7 v8 v9 v10 : Val) :
    hasError [("roof_perimeter_feet", v1), ("roof_perimeter_meters", v2),
      ("roof_area_feet", v3), ("roof_area_meters", v4), ("estimated_cost_usd", v5),
      ("cost_per_foot", v6), ("building_footprint", v7), ("utm_zone", v8),
      ("calculation_method", v9), ("debug_info", v10)] = false := by
  simp [hasError, hasKey]

lemma hasError_err (s : String) : hasError [("error", Val.str s)] = true := by
  simp [hasError, hasKey]

lemma shapeOK_err (s : String) : shapeOK [("error", Val.str s)] := by
  right
  simp [hasError, hasKey, hasAnyMeas, measurementKeys]

lemma shapeOK_calcSuccess (v1 v2 v3 v4 v5 v6 v7 v8 v9 v10 : Val) :
    shapeOK [("roof_perimeter_feet", v1), ("roof_perimeter_meters", v2),
      ("roof_area_feet", v3), ("roof_area_meters", v4), ("estimated_cost_usd", v5),
      ("cost_per_foot", v6), ("building_footprint", v7), ("utm_zone", v8),
      ("calculation_method", v9), ("debug_info", v10)] := by
  left
  simp [hasError, hasKey, hasAllMeas, measurementKeys]

lemma shapeOK_googleSuccess (v1 v2 v3 v4 v5 v6 v7 v8 v9 : Val) :
    shapeOK [("roof_perimeter_feet", v1), ("roof_perimeter_meters", v2),
      ("roof_area_feet", v3), ("roof_area_meters", v4), ("estimated_cost_usd", v5),
      ("cost_per_foot", v6), ("method", v7), ("accuracy", v8), ("address", v9)] := by
  left
  simp [hasError, hasKey, hasAllMeas, measurementKeys]

/-! ## Claim theorems -/

/-- C7: for every closed polygon ring, the perimeter and the (unsigned)
area computed by the footprint calculator are unchanged when the ring's
starting vertex is rotated, and unchanged in absolute value when the ring's
vertex order is reversed.  (Stated on arbitrary vertex lists, which covers
the projected ring: the pointwise projection commutes with `rotate` and
`reverse`.) -/
theorem ring_measures_rotation_reversal_invariant :
    ∀ (l : List (ℚ × ℚ)) (k : ℕ),
      ringPerimeter (l.rotate k) = ringPerimeter l ∧
      ringArea (l.rotate k) = ringArea l ∧
      ringPerimeter l.reverse = ringPerimeter l ∧
      ringArea l.reverse = ringArea l := by
  intro l k
  refine ⟨cycleSum_rotate _ _ _, ?_, cycleSum_reverse_of_symm _ segLen_symm _, ?_⟩
  · unfold ringArea shoelace
    rw [cycleSum_rotate]
  · unfold ringArea shoelace
    rw [cycleSum_reverse_of_anti _ cross_antisymm, abs_neg]

/-- C10: the approximate-bounds state lookup checks the boxes in the fixed
order NY, CA, TX, FL, IL, PA, OH, GA, NC, MI and returns the first state
whose box contains the point (so the earlier of two overlapping boxes wins,
e.g. (41, −75) lies in both the NY and PA boxes and yields "NY"), and
returns the truthy (non-empty) string "Unknown" when no box contains it. -/
theorem state_lookup_first_match :
    (state_bounds.map Prod.fst =
      ["NY", "CA", "TX", "FL", "IL", "PA", "OH", "GA", "NC", "MI"]) ∧
    (∀ lat lng : ℚ, (∀ sb ∈ state_bounds, inBounds sb.2 lat lng = false) →
      get_state_from_approximate_bounds lat lng = "Unknown") ∧
    (∀ (lat lng : ℚ) (l₁ : List (String × (ℚ × ℚ) × (ℚ × ℚ))) sb l₂,
      state_bounds = l₁ ++ sb :: l₂ →
      (∀ y ∈ l₁, inBounds y.2 lat lng = false) → inBounds sb.2 lat lng = true →
      get_state_from_approximate_bounds lat lng = sb.1) ∧
    (inBounds ((40.5, 45.0), (-79.8, -71.8)) 41 (-75) = true ∧
     inBounds ((39.7, 42.3), (-80.5, -74.7)) 41 (-75) = true ∧
     get_state_from_approximate_bounds 41 (-75) = "NY") ∧
    "Unknown" ≠ "" := by
  have hNY : inBounds ((40.5, 45.0), (-79.8, -71.8)) 41 (-75) = true :=
    (inBounds_iff _ _ _).mpr (by norm_num)
  refine ⟨by rfl, ?_, ?_, ⟨hNY, (inBounds_iff _ _ _).mpr (by norm_num), ?_⟩, by simp⟩
  · intro lat lng h
    unfold get_state_from_approximate_bounds
    rw [List.find?_eq_none.mpr (fun x hx => by simp [h x hx])]
  · intro lat lng l₁ sb l₂ heq h1 hx
    unfold get_state_from_approximate_bounds
    rw [heq, find?_append_first _ _ _ _ (fun y hy => h1 y hy) hx]
  · unfold get_state_from_approximate_bounds
    rw [show state_bounds =
          [] ++ ("NY", (40.5, 45.0), (-79.8, -71.8)) :: state_bounds.tail from rfl,
        find?_append_first (fun sb => inBounds sb.2 41 (-75)) []
          ("NY", (40.5, 45.0), (-79.8, -71.8)) state_bounds.tail (by simp) hNY]

/-- Witness for C10: applies the theorem at the overlap point (41, −75)
(first match NY) and at the origin (no containing box, hence "Unknown"). -/
theorem state_lookup_first_match_witness :
    get_state_from_approximate_bounds 0 0 = "Unknown" ∧
    get_state_from_approximate_bounds 41 (-75) = "NY" := by
  obtain ⟨h1, h2, h3, h4, h5⟩ := state_lookup_first_match
  refine ⟨h2 0 0 ?_, h3 41 (-75) [] _ _ rfl (by simp) ((inBounds_iff _ _ _).mpr (by norm_num))⟩
  intro sb hsb
  rw [inBounds_false_iff]
  fin_cases hsb <;> norm_num

/-- C2 counterexample: the plausibility bounds are closed, not open.  A
polygon passing validation whose projected perimeter is exactly 5000 m and
projected area exactly 10000 m² yields a success-shaped measurement, even
though 5000 ∉ (1, 5000) and 10000 ∉ (1, 10000): the claimed
"violation → error" fails at the endpoints. -/
theorem calc_open_bounds_counterexample :
    hasError (calculate_building_perimeter
      (some ⟨"Polygon", [[(0, 0), (1/1000, 0), (0, 1/1000)]]⟩)
      ⟨true, true, 0, 0, 5000, 10000⟩) = false ∧
    ¬((5000 : ℚ) < 5000) ∧ ¬((10000 : ℚ) < 10000) := by
  refine ⟨?_, by norm_num, by norm_num⟩
  norm_num [calculate_building_perimeter, boundsOf, hasError, hasKey,
    abs_of_nonneg, abs_of_nonpos]
  simp

/-- C2 (amended): for every polygon that passes the pre-projection
validation, the result is success-shaped exactly when the projected
perimeter lies in the closed interval [1, 5000] meters and the projected
area in the closed interval [1, 10000] m²; any violation of these closed
bounds yields an error-shaped result (the code errors on `> 5000`,
`> 10000`, `< 1`, so the endpoints pass). -/
theorem calc_plausibility_closed_bounds (g : Geom) (o : Oracle)
    (hpre : passesPreChecks g o) :
    hasError (calculate_building_perimeter (some g) o) = false ↔
      (1 ≤ o.projPerimeter ∧ o.projPerimeter ≤ 5000 ∧
       1 ≤ o.projArea ∧ o.projArea ≤ 10000) := by
  obtain ⟨gt, cl⟩ := g
  obtain ⟨h1, h2, h3, h4, h5, h6⟩ := hpre
  simp only at h1
  subst h1
  cases cl with
  | nil => exact absurd rfl h2
  | cons coords rest =>
    simp only [List.headD_cons] at h3 h5 h6
    simp only [calculate_building_perimeter, if_neg (by simp : ¬"Polygon" ≠ "Polygon")]
    rw [if_neg (by omega : ¬coords.length = 0), if_neg (by omega : ¬coords.length < 3),
      if_neg (by rcases h4 with h | h <;> simp [h] :
        ¬(o.isValidRaw = false ∧ o.madeValidOk = false)),
      if_neg (by rw [not_or, not_lt, not_lt]; exact ⟨h5, h6⟩)]
    split_ifs with hp1 hp2 hp3 hp4
    · rw [hasError_err]
      constructor
      · intro h; exact absurd h (by simp)
      · intro h; exact absurd hp1 (not_lt.mpr h.2.1)
    · rw [hasError_err]
      constructor
      · intro h; exact absurd h (by simp)
      · intro h; exact absurd hp2 (not_lt.mpr h.2.2.2)
    · rw [hasError_err]
      constructor
      · intro h; exact absurd h (by simp)
      · intro h; exact absurd hp3 (not_lt.mpr h.1)
    · rw [hasError_err]
      constructor
      · intro h; exact absurd h (by simp)
      · intro h; exact absurd hp4 (not_lt.mpr h.2.2.1)
    · rw [hasError_calcSuccess]
      simp only [true_iff]
      exact ⟨not_lt.mp hp3, not_lt.mp hp1, not_lt.mp hp4, not_lt.mp hp2⟩

lemma calc_success_eq (g : Geom) (o : Oracle) (hpre : passesPreChecks g o)
    (hb : 1 ≤ o.projPerimeter ∧ o.projPerimeter ≤ 5000 ∧
      1 ≤ o.projArea ∧ o.projArea ≤ 10000) :
    calculate_building_perimeter (some g) o =
      [("roof_perimeter_feet", Val.num (pyRound (o.projPerimeter * METERS_TO_FEET) 1)),
       ("roof_perimeter_meters", Val.num (pyRound o.projPerimeter 1)),
       ("roof_area_feet", Val.num (pyRound (o.projArea * METERS_TO_FEET ^ 2) 1)),
       ("roof_area_meters", Val.num (pyRound o.projArea 1)),
       ("estimated_cost_usd",
         Val.num (pyRound (o.projPerimeter * METERS_TO_FEET * cost_per_foot) 2)),
       ("cost_per_foot", Val.num cost_per_foot),
       ("building_footprint", Val.geo g),
       ("utm_zone", Val.epsg (utmSelect o.centroidLon o.centroidLat)),
       ("calculation_method", Val.str "precise_geodetic"),
       ("debug_info", Val.dict
         [("centroid_lng", Val.num (pyRound o.centroidLon 6)),
          ("centroid_lat", Val.num (pyRound o.centroidLat 6)),
          ("bounds", Val.vlist
            [Val.num (pyRound (boundsOf (g.coordinates.headD [])).1 6),
             Val.num (pyRound (boundsOf (g.coordinates.headD [])).2.1 6),
             Val.num (pyRound (boundsOf (g.coordinates.headD [])).2.2.1 6),
             Val.num (pyRound (boundsOf (g.coordinates.headD [])).2.2.2 6)]),
          ("coordinate_count", Val.num (g.coordinates.headD []).length)])] := by
  obtain ⟨gt, cl⟩ := g
  obtain ⟨h1, h2, h3, h4, h5, h6⟩ := hpre
  simp only at h1
  subst h1
  cases cl with
  | nil => exact absurd rfl h2
  | cons coords rest =>
    simp only [List.headD_cons] at h3 h5 h6 ⊢
    simp only [calculate_building_perimeter, if_neg (by simp : ¬"Polygon" ≠ "Polygon")]
    rw [if_neg (by omega : ¬coords.length = 0), if_neg (by omega : ¬coords.length < 3),
      if_neg (by rcases h4 with h | h <;> simp [h] :
        ¬(o.isValidRaw = false ∧ o.madeValidOk = false)),
      if_neg (by rw [not_or, not_lt, not_lt]; exact ⟨h5, h6⟩),
      if_neg (not_lt.mpr hb.2.1), if_neg (not_lt.mpr hb.2.2.2),
      if_neg (not_lt.mpr hb.1), if_neg (not_lt.mpr hb.2.2.1)]

/-- C5: for every polygon that passes validation and the plausibility
checks, the footprint calculator converts meters to feet with the factor
3.28084 (squared for the area), and the estimated cost is the perimeter in
feet times the fixed rate `cost_per_foot = 6.10` (the returned fields carry
the Python `round(·, 1)` / `round(·, 2)` of those products). -/
theorem calc_feet_conversion_and_cost (g : Geom) (o : Oracle)
    (hpre : passesPreChecks g o)
    (hb : 1 ≤ o.projPerimeter ∧ o.projPerimeter ≤ 5000 ∧
      1 ≤ o.projArea ∧ o.projArea ≤ 10000) :
    alookup (calculate_building_perimeter (some g) o) "roof_perimeter_feet" =
      some (Val.num (pyRound (o.projPerimeter * METERS_TO_FEET) 1)) ∧
    alookup (calculate_building_perimeter (some g) o) "roof_area_feet" =
      some (Val.num (pyRound (o.projArea * METERS_TO_FEET ^ 2) 1)) ∧
    alookup (calculate_building_perimeter (some g) o) "estimated_cost_usd" =
      some (Val.num (pyRound (o.projPerimeter * METERS_TO_FEET * cost_per_foot) 2)) ∧
    alookup (calculate_building_perimeter (some g) o) "cost_per_foot" =
      some (Val.num cost_per_foot) ∧
    METERS_TO_FEET = 328084 / 100000 ∧ cost_per_foot = 61 / 10 := by
  rw [calc_success_eq g o hpre hb]
  refine ⟨by simp [alookup], by simp [alookup], by simp [alookup], by simp [alookup],
    by norm_num [METERS_TO_FEET], by norm_num [cost_per_foot]⟩

/-- Witness for C5: the valid triangle with projected perimeter 100 m and
area 50 m²; the cost field is `round(100 · 3.28084 · 6.10, 2)`. -/
theorem calc_feet_conversion_and_cost_witness :
    passesPreChecks ⟨"Polygon", [[(0, 0), (1/1000, 0), (0, 1/1000)]]⟩
      ⟨true, true, 0, 0, 100, 50⟩ ∧
    alookup (calculate_building_perimeter
        (some ⟨"Polygon", [[(0, 0), (1/1000, 0), (0, 1/1000)]]⟩)
        ⟨true, true, 0, 0, 100, 50⟩) "estimated_cost_usd" =
      some (Val.num (pyRound ((100 : ℚ) * METERS_TO_FEET * cost_per_foot) 2)) := by
  have hpre : passesPreChecks ⟨"Polygon", [[(0, 0), (1/1000, 0), (0, 1/1000)]]⟩
      ⟨true, true, 0, 0, 100, 50⟩ := by
    refine ⟨rfl, by simp, by norm_num, Or.inl rfl, ?_, ?_⟩ <;>
      norm_num [boundsOf, abs_of_nonneg]
  exact ⟨hpre, (calc_feet_conversion_and_cost _ _ hpre (by norm_num)).2.2.1⟩

/-- Witness for C2: a small valid triangle with projected perimeter 100 m
and area 50 m², passing the pre-checks; the theorem's equivalence holds. -/
theorem calc_plausibility_closed_bounds_witness :
    passesPreChecks ⟨"Polygon", [[(0, 0), (1/1000, 0), (0, 1/1000)]]⟩
      ⟨true, true, 0, 0, 100, 50⟩ ∧
    (hasError (calculate_building_perimeter
        (some ⟨"Polygon", [[(0, 0), (1/1000, 0), (0, 1/1000)]]⟩)
        ⟨true, true, 0, 0, 100, 50⟩) = false ↔
      (1 ≤ (100 : ℚ) ∧ (100 : ℚ) ≤ 5000 ∧ 1 ≤ (50 : ℚ) ∧ (50 : ℚ) ≤ 10000)) := by
  have hpre : passesPreChecks ⟨"Polygon", [[(0, 0), (1/1000, 0), (0, 1/1000)]]⟩
      ⟨true, true, 0, 0, 100, 50⟩ := by
    refine ⟨rfl, by simp, by norm_num, Or.inl rfl, ?_, ?_⟩ <;>
      norm_num [boundsOf, abs_of_nonneg]
  exact ⟨hpre, calc_plausibility_closed_bounds _ _ hpre⟩

/-- C6: for every input, the result of the footprint perimeter calculator
and of the insights aggregator is either success-shaped (all measurement
fields present, no `"error"` key) or error-shaped (an `"error"` key and no
measurement field), never both. -/
theorem result_shape_exclusive :
    ∀ (g : Option Geom) (o : Oracle) (addr : String) (geocode : Option (ℚ × ℚ))
      (status : ℤ) (hasName : Bool) (segs : List Seg),
      shapeOK (calculate_building_perimeter g o) ∧
      shapeOK (get_google_solar_data addr geocode status hasName segs) := by
  intro g o addr geocode status hasName segs
  constructor
  · rcases g with _ | ⟨gt, cl⟩
    · exact shapeOK_err _
    · rcases cl with _ | ⟨coords, rest⟩
      · simp only [calculate_building_perimeter]
        by_cases h1 : gt ≠ "Polygon"
        · rw [if_pos h1]; exact shapeOK_err _
        · rw [if_neg h1]; exact shapeOK_err _
      · simp only [calculate_building_perimeter]
        by_cases h1 : gt ≠ "Polygon"
        · rw [if_pos h1]; exact shapeOK_err _
        rw [if_neg h1]
        by_cases h2 : coords.length = 0
        · rw [if_pos h2]; exact shapeOK_err _
        rw [if_neg h2]
        by_cases h3 : coords.length < 3
        · rw [if_pos h3]; exact shapeOK_err _
        rw [if_neg h3]
        by_cases h4 : o.isValidRaw = false ∧ o.madeValidOk = false
        · rw [if_pos h4]; exact shapeOK_err _
        rw [if_neg h4]
        by_cases h5 : 1 < |(boundsOf coords).2.2.1 - (boundsOf coords).1| ∨
            1 < |(boundsOf coords).2.2.2 - (boundsOf coords).2.1|
        · rw [if_pos h5]; exact shapeOK_err _
        rw [if_neg h5]
        by_cases h6 : 5000 < o.projPerimeter
        · rw [if_pos h6]; exact shapeOK_err _
        rw [if_neg h6]
        by_cases h7 : 10000 < o.projArea
        · rw [if_pos h7]; exact shapeOK_err _
        rw [if_neg h7]
        by_cases h8 : o.projPerimeter < 1
        · rw [if_pos h8]; exact shapeOK_err _
        rw [if_neg h8]
        by_cases h9 : o.projArea < 1
        · rw [if_pos h9]; exact shapeOK_err _
        rw [if_neg h9]
        exact shapeOK_calcSuccess _ _ _ _ _ _ _ _ _ _
  · rcases geocode with _ | ⟨lat, lng⟩
    · exact shapeOK_err _
    · simp only [get_google_solar_data]
      by_cases h1 : lat = 0 ∨ lng = 0
      · rw [if_pos h1]; exact shapeOK_err _
      rw [if_neg h1]
      by_cases h2 : status ≠ 200
      · rw [if_pos h2]; exact shapeOK_err _
      rw [if_neg h2]
      by_cases h3 : hasName = false
      · rw [if_pos h3]; exact shapeOK_err _
      rw [if_neg h3]
      exact shapeOK_googleSuccess _ _ _ _ _ _ _ _ _

/-- C3 counterexample: the UTM zone is validated, not clamped.  At centroid
longitude 180 the computed zone is `int(360/6)+1 = 61`; clamping to 1–60
(the claim's wording, `utmSelectClamped`) would select the northern zone-60
code, but the code raises on the out-of-range zone and falls back to Web
Mercator. -/
theorem utm_clamping_counterexample :
    utmSelect 180 0 = EPSG.webMercator ∧
    utmSelectClamped 180 0 = EPSG.utmNorth 60 ∧
    EPSG.webMercator ≠ EPSG.utmNorth 60 := by
  have h60 : pyInt ((180 + 180 : ℚ) / 6) = 60 := by
    unfold pyInt
    rw [if_pos (by norm_num)]
    norm_num [Int.floor_eq_iff]
  refine ⟨?_, ?_, by simp⟩
  · simp only [utmSelect, h60]
    norm_num
  · simp only [utmSelectClamped, h60]
    norm_num
    rfl

/-- C3 (amended): the projection selection computes
`zone = floor((lon+180)/6) + 1` and *validates* it against the range 1–60:
for −180 ≤ lon < 180 the zone lies in 1–60 and the northern code is chosen
iff the centroid latitude is ≥ 0; longitude −180 gives zone 1 and 179.9
gives zone 60; an out-of-range zone (rather than being clamped) makes the
selection fail and fall back to Web Mercator. -/
theorem utm_zone_validated_with_fallback (lon lat : ℚ)
    (h1 : -180 ≤ lon) (h2 : lon < 180) :
    (1 ≤ ⌊(lon + 180) / 6⌋ + 1 ∧ ⌊(lon + 180) / 6⌋ + 1 ≤ 60) ∧
    utmSelect lon lat =
      (if 0 ≤ lat then EPSG.utmNorth (⌊(lon + 180) / 6⌋ + 1).toNat
       else EPSG.utmSouth (⌊(lon + 180) / 6⌋ + 1).toNat) ∧
    utmSelect (-180) lat = (if 0 ≤ lat then EPSG.utmNorth 1 else EPSG.utmSouth 1) ∧
    utmSelect (1799/10) lat =
      (if 0 ≤ lat then EPSG.utmNorth 60 else EPSG.utmSouth 60) ∧
    (∀ lon' : ℚ,
      (pyInt ((lon' + 180) / 6) + 1 < 1 ∨ 60 < pyInt ((lon' + 180) / 6) + 1) →
      utmSelect lon' lat = EPSG.webMercator) := by
  have hx0 : (0 : ℚ) ≤ (lon + 180) / 6 := by linarith
  have hfl0 : 0 ≤ ⌊(lon + 180) / 6⌋ := Int.floor_nonneg.mpr hx0
  have hfl60 : ⌊(lon + 180) / 6⌋ < 60 := by
    rw [Int.floor_lt]
    push_cast
    linarith
  refine ⟨⟨by omega, by omega⟩, ?_, ?_, ?_, ?_⟩
  · simp only [utmSelect, pyInt, if_pos hx0]
    rw [if_neg (by omega)]
  · have : pyInt ((-180 + 180 : ℚ) / 6) = 0 := by
      unfold pyInt
      rw [if_pos (by norm_num)]
      norm_num
    simp only [utmSelect, this]
    norm_num
  · have : pyInt ((1799/10 + 180 : ℚ) / 6) = 59 := by
      unfold pyInt
      rw [if_pos (by norm_num)]
      rw [show ((1799/10 + 180 : ℚ) / 6) = 3599/60 by norm_num]
      norm_num [Int.floor_eq_iff]
    simp only [utmSelect, this]
    norm_num
    by_cases hl : 0 ≤ lat <;> simp [hl]
  · intro lon' h
    simp only [utmSelect]
    rw [if_pos h]

/-- Witness for C3: longitude 6 (zone 32, northern) satisfies the range
hypotheses, and longitude 200 (zone 64, out of range) falls back to Web
Mercator. -/
theorem utm_zone_validated_with_fallback_witness :
    ((-180 : ℚ) ≤ 6 ∧ (6 : ℚ) < 180) ∧ utmSelect 6 1 = EPSG.utmNorth 32 ∧
    utmSelect 200 1 = EPSG.webMercator := by
  have h := utm_zone_validated_with_fallback 6 1 (by norm_num) (by norm_num)
  refine ⟨⟨by norm_num, by norm_num⟩, ?_, ?_⟩
  · rw [h.2.1, if_pos (by norm_num : (0 : ℚ) ≤ 1)]
    have h31 : ⌊(6 + 180 : ℚ) / 6⌋ = 31 := by norm_num [Int.floor_eq_iff]
    rw [h31]
    rfl
  · refine h.2.2.2.2 200 ?_
    right
    unfold pyInt
    rw [if_pos (by norm_num)]
    have h63 : ⌊(200 + 180 : ℚ) / 6⌋ = 63 := by
      rw [show ((200 + 180 : ℚ) / 6) = 190/3 by norm_num]
      norm_num [Int.floor_eq_iff]
    rw [h63]
    norm_num

lemma pyRoundR_eq_of_lt_half (x : ℝ) (n : ℕ) (z : ℤ)
    (h1 : (z : ℝ) ≤ x * 10 ^ n) (h2 : x * 10 ^ n < z + 1/2) :
    pyRoundR x n = (z : ℝ) / 10 ^ n := by
  have hfl : ⌊x * 10 ^ n⌋ = z := by
    rw [Int.floor_eq_iff]
    exact ⟨h1, by linarith⟩
  unfold pyRoundR roundHalfEvenR
  rw [hfl, if_pos (by linarith)]

lemma pyRoundR_zero (n : ℕ) : pyRoundR 0 n = 0 := by
  have h := pyRoundR_eq_of_lt_half 0 n 0 (by norm_num) (by norm_num)
  simpa using h

lemma google_success_eq (addr : String) (la lg : ℚ) (segs : List Seg)
    (hgeo : ¬(la = 0 ∨ lg = 0)) :
    get_google_solar_data addr (some (la, lg)) 200 true segs =
      [("roof_perimeter_feet",
         Val.rnum (pyRoundR (totPerim segs * ((METERS_TO_FEET : ℚ) : ℝ)) 1)),
       ("roof_perimeter_meters", Val.rnum (pyRoundR (totPerim segs) 1)),
       ("roof_area_feet",
         Val.rnum (pyRoundR (((totArea segs : ℚ) : ℝ) * ((METERS_TO_FEET : ℚ) : ℝ) ^ 2) 1)),
       ("roof_area_meters", Val.rnum (pyRoundR ((totArea segs : ℚ) : ℝ) 1)),
       ("estimated_cost_usd",
         Val.rnum (pyRoundR (totPerim segs * ((METERS_TO_FEET : ℚ) : ℝ) *
           ((cost_per_foot : ℚ) : ℝ)) 2)),
       ("cost_per_foot", Val.num cost_per_foot),
       ("method", Val.str "google_solar_api"),
       ("accuracy", Val.str "medium"),
       ("address", Val.str addr)] := by
  simp only [get_google_solar_data]
  rw [if_neg hgeo, if_neg (by simp), if_neg (by simp)]

lemma totArea_eq_map_sum (segs : List Seg) :
    totArea segs =
      (segs.map (fun s => if s.hasPitch = true then s.groundAreaMeters2.getD 0 else 0)).sum := by
  induction segs with
  | nil => simp [totArea]
  | cons s t ih => simp [totArea, ih]

lemma totPerim_eq_map_sum (segs : List Seg) :
    totPerim segs =
      (segs.map (fun s =>
        if s.hasPitch = true ∧ 0 < s.groundAreaMeters2.getD 0 then
          4 * Real.sqrt ((s.groundAreaMeters2.getD 0 : ℚ) : ℝ)
        else 0)).sum := by
  induction segs with
  | nil => simp [totPerim]
  | cons s t ih => simp [totPerim, ih]

lemma totArea_all_unpitched (segs : List Seg)
    (h : ∀ s ∈ segs, s.hasPitch = false) : totArea segs = 0 := by
  induction segs with
  | nil => simp [totArea]
  | cons s t ih =>
    have hs := h s (by simp)
    simp [totArea, hs, ih (fun x hx => h x (by simp [hx]))]

lemma totPerim_all_unpitched (segs : List Seg)
    (h : ∀ s ∈ segs, s.hasPitch = false) : totPerim segs = 0 := by
  induction segs with
  | nil => simp [totPerim]
  | cons s t ih =>
    have hs := h s (by simp)
    simp [totPerim, hs, ih (fun x hx => h x (by simp [hx]))]

/-- C9: in the insights aggregator a segment without `"pitchDegrees"`
contributes neither area nor perimeter, a segment with zero (or missing,
hence defaulted-to-0) ground area contributes zero perimeter, and a segment
list with no pitched segment yields a success result reporting zero area,
zero perimeter and zero cost rather than an error. -/
theorem insights_unpitched_contribute_nothing (addr : String) (la lg : ℚ)
    (segs : List Seg) (hla : la ≠ 0) (hlg : lg ≠ 0)
    (hall : ∀ s ∈ segs, s.hasPitch = false) :
    (∀ (s : Seg) (t : List Seg), s.hasPitch = false →
      totArea (s :: t) = totArea t ∧ totPerim (s :: t) = totPerim t) ∧
    (∀ (s : Seg) (t : List Seg), s.groundAreaMeters2.getD 0 = 0 →
      totPerim (s :: t) = totPerim t) ∧
    totArea segs = 0 ∧ totPerim segs = 0 ∧
    hasError (get_google_solar_data addr (some (la, lg)) 200 true segs) = false ∧
    alookup (get_google_solar_data addr (some (la, lg)) 200 true segs)
      "roof_area_meters" = some (Val.rnum 0) ∧
    alookup (get_google_solar_data addr (some (la, lg)) 200 true segs)
      "roof_perimeter_meters" = some (Val.rnum 0) ∧
    alookup (get_google_solar_data addr (some (la, lg)) 200 true segs)
      "estimated_cost_usd" = some (Val.rnum 0) := by
  have hgeo : ¬(la = 0 ∨ lg = 0) := by
    rw [not_or]
    exact ⟨hla, hlg⟩
  have hA := totArea_all_unpitched segs hall
  have hP := totPerim_all_unpitched segs hall
  rw [google_success_eq addr la lg segs hgeo]
  refine ⟨?_, ?_, hA, hP, ?_, ?_, ?_, ?_⟩
  · intro s t hs
    constructor
    · simp [totArea, hs]
    · simp [totPerim, hs]
  · intro s t hg
    simp [totPerim, hg]
  · simp [hasError, hasKey]
  · simp [alookup, hA, pyRoundR_zero]
  · simp [alookup, hP, pyRoundR_zero]
  · simp [alookup, hP, pyRoundR_zero]

/-- Witness for C9: one pitchless segment with ground area 5; the
aggregator reports cost 0 without an error. -/
theorem insights_unpitched_contribute_nothing_witness :
    ((1 : ℚ) ≠ 0 ∧ ∀ s ∈ [(⟨false, some 5⟩ : Seg)], s.hasPitch = false) ∧
    alookup (get_google_solar_data "a" (some (1, 1)) 200 true [⟨false, some 5⟩])
      "estimated_cost_usd" = some (Val.rnum 0) := by
  have hall : ∀ s ∈ [(⟨false, some 5⟩ : Seg)], s.hasPitch = false := by
    intro s hs
    simp only [List.mem_singleton] at hs
    rw [hs]
  exact ⟨⟨by norm_num, hall⟩,
    (insights_unpitched_contribute_nothing "a" 1 1 _ (by norm_num) (by norm_num)
      hall).2.2.2.2.2.2.2⟩

/-- C1 counterexample: the insights aggregator does *not* cost at 20
currency units per meter.  A single pitched segment of ground area 1 m²
has total perimeter 4·√1 = 4 m; the claimed per-meter rate would give cost
round(4 · 20, 2) = 80, but the code converts to feet and charges 6.10/ft:
round(4 · 3.28084 · 6.10, 2) = 80.05. -/
theorem insights_cost_not_20_per_meter :
    totPerim [⟨true, some 1⟩] = 4 ∧
    alookup (get_google_solar_data "addr" (some (1, 1)) 200 true [⟨true, some 1⟩])
      "estimated_cost_usd" = some (Val.rnum (8005/100)) ∧
    (8005/100 : ℝ) ≠ 20 * 4 := by
  have h4 : totPerim [⟨true, some 1⟩] = 4 := by
    norm_num [totPerim, Real.sqrt_one]
  refine ⟨h4, ?_, by norm_num⟩
  rw [google_success_eq "addr" 1 1 _ (by norm_num)]
  simp only [alookup, if_pos, if_neg, String.reduceEq, reduceIte]
  rw [h4]
  have hval : pyRoundR ((4 : ℝ) * ((METERS_TO_FEET : ℚ) : ℝ) *
      ((cost_per_foot : ℚ) : ℝ)) 2 = (8005 : ℝ) / 10 ^ 2 :=
    pyRoundR_eq_of_lt_half _ 2 8005
      (by norm_num [METERS_TO_FEET, cost_per_foot])
      (by norm_num [METERS_TO_FEET, cost_per_foot])
  rw [hval]
  norm_num

/-- C1 (amended): for every segment list (with geocoding and the API call
succeeding), each pitched segment with positive ground area contributes a
perimeter of `4·sqrt(groundAreaMeters2)`, perimeters and areas are summed,
and the estimated cost is the total perimeter *converted to feet*
(× 3.28084) times the per-foot rate 6.10 — an effective ≈ 20.013 per meter,
not the claimed flat 20 per meter. -/
theorem insights_cost_is_per_foot (addr : String) (la lg : ℚ) (segs : List Seg)
    (hla : la ≠ 0) (hlg : lg ≠ 0) :
    totPerim segs =
      (segs.map (fun s =>
        if s.hasPitch = true ∧ 0 < s.groundAreaMeters2.getD 0 then
          4 * Real.sqrt ((s.groundAreaMeters2.getD 0 : ℚ) : ℝ)
        else 0)).sum ∧
    totArea segs =
      (segs.map (fun s => if s.hasPitch = true then s.groundAreaMeters2.getD 0 else 0)).sum ∧
    alookup (get_google_solar_data addr (some (la, lg)) 200 true segs)
      "roof_perimeter_meters" = some (Val.rnum (pyRoundR (totPerim segs) 1)) ∧
    alookup (get_google_solar_data addr (some (la, lg)) 200 true segs)
      "roof_area_meters" = some (Val.rnum (pyRoundR ((totArea segs : ℚ) : ℝ) 1)) ∧
    alookup (get_google_solar_data addr (some (la, lg)) 200 true segs)
      "estimated_cost_usd" = some (Val.rnum (pyRoundR (totPerim segs *
        ((METERS_TO_FEET : ℚ) : ℝ) * ((cost_per_foot : ℚ) : ℝ)) 2)) ∧
    METERS_TO_FEET = 328084 / 100000 ∧ cost_per_foot = 61 / 10 := by
  rw [google_success_eq addr la lg segs (by rw [not_or]; exact ⟨hla, hlg⟩)]
  refine ⟨totPerim_eq_map_sum segs, totArea_eq_map_sum segs, by simp [alookup],
    by simp [alookup], by simp [alookup], by norm_num [METERS_TO_FEET],
    by norm_num [cost_per_foot]⟩

/-- Witness for C1: one pitched segment with ground area 4 m² (perimeter
4·√4 = 8 m); the cost field is the per-foot product. -/
theorem insights_cost_is_per_foot_witness :
    (1 : ℚ) ≠ 0 ∧
    alookup (get_google_solar_data "a" (some (1, 1)) 200 true [⟨true, some 4⟩])
      "estimated_cost_usd" = some (Val.rnum (pyRoundR (totPerim [⟨true, some 4⟩] *
        ((METERS_TO_FEET : ℚ) : ℝ) * ((cost_per_foot : ℚ) : ℝ)) 2)) ∧
    totPerim [⟨true, some 4⟩] = 8 := by
  refine ⟨by norm_num,
    (insights_cost_is_per_foot "a" 1 1 [⟨true, some 4⟩] (by norm_num)
      (by norm_num)).2.2.2.2.1, ?_⟩
  have h2 : Real.sqrt (4 : ℝ) = 2 := by
    rw [show (4 : ℝ) = 2 ^ 2 by norm_num]
    exact Real.sqrt_sq (by norm_num)
  norm_num [totPerim, h2]

/-- C4: calling the top-level estimator twice with the same address and no
intervening cache clear returns the identical cached result with no second
set of network calls (0 method attempts), and the first call's result —
success or the aggregate error alike, for any environment — is stored in
the cache under the address. -/
theorem estimator_cache_idempotent (env : Env) (cache : List (String × Dict))
    (addr : String) (hmiss : alookup cache addr = none)
    (hm : env.microsoft addr ≠ []) (hg : env.google addr ≠ []) :
    alookup (get_best_free_building_perimeter env cache addr).2.1 addr =
      some (get_best_free_building_perimeter env cache addr).1 ∧
    get_best_free_building_perimeter env
        (get_best_free_building_perimeter env cache addr).2.1 addr =
      ((get_best_free_building_perimeter env cache addr).1,
       (get_best_free_building_perimeter env cache addr).2.1, 0) := by
  have hfirst : get_best_free_building_perimeter env cache addr =
      attemptMethods env cache addr := by
    simp only [get_best_free_building_perimeter, hmiss]
  rw [hfirst]
  have hattempt : ∃ res n, attemptMethods env cache addr = (res, (addr, res) :: cache, n) ∧
      res ≠ [] := by
    unfold attemptMethods
    by_cases h1 : hasError (env.microsoft addr) = false
    · exact ⟨env.microsoft addr, 1, by rw [if_pos h1], hm⟩
    · by_cases h2 : hasError (env.google addr) = false
      · exact ⟨env.google addr, 2, by rw [if_neg h1, if_pos h2], hg⟩
      · refine ⟨_, 2, by rw [if_neg h1, if_neg h2], by simp⟩
  obtain ⟨res, n, heq, hne⟩ := hattempt
  rw [heq]
  have hlook : alookup ((addr, res) :: cache) addr = some res := by
    simp [alookup]
  refine ⟨hlook, ?_⟩
  simp only [get_best_free_building_perimeter, hlook]
  rw [if_neg (by simpa using hne)]

/-- Witness for C4: empty cache, both methods returning error dicts; the
second call returns the cached aggregate error with 0 method attempts. -/
theorem estimator_cache_idempotent_witness :
    alookup ([] : List (String × Dict)) "a" = none ∧
    (fun (_ : String) => [("error", Val.str "m")]) "a" ≠ ([] : Dict) ∧
    (get_best_free_building_perimeter
        ⟨fun _ => [("error", Val.str "m")], fun _ => [("error", Val.str "g")]⟩
        (get_best_free_building_perimeter
          ⟨fun _ => [("error", Val.str "m")], fun _ => [("error", Val.str "g")]⟩ [] "a").2.1
        "a" =
      ((get_best_free_building_perimeter
          ⟨fun _ => [("error", Val.str "m")], fun _ => [("error", Val.str "g")]⟩ [] "a").1,
       (get_best_free_building_perimeter
          ⟨fun _ => [("error", Val.str "m")], fun _ => [("error", Val.str "g")]⟩ [] "a").2.1,
       0)) := by
  refine ⟨rfl, by simp, ?_⟩
  exact (estimator_cache_idempotent
      ⟨fun _ => [("error", Val.str "m")], fun _ => [("error", Val.str "g")]⟩ [] "a"
      rfl (by simp) (by simp)).2

/-- C8: on a cache miss the estimator attempts the building-footprint
(Microsoft) method first; only when that result is error-shaped does it
attempt the building-insights (Google Solar) method (the attempt count is 1
in the first case); it returns the first success, and when both fail it
returns the aggregate error whose `"details"` carries each method's
individual failure result. -/
theorem estimator_fallback_order (env : Env) (cache : List (String × Dict))
    (addr : String) (hmiss : alookup cache addr = none) :
    (hasError (env.microsoft addr) = false →
      get_best_free_building_perimeter env cache addr =
        (env.microsoft addr, (addr, env.microsoft addr) :: cache, 1)) ∧
    (hasError (env.microsoft addr) = true → hasError (env.google addr) = false →
      get_best_free_building_perimeter env cache addr =
        (env.google addr, (addr, env.google addr) :: cache, 2)) ∧
    (hasError (env.microsoft addr) = true → hasError (env.google addr) = true →
      get_best_free_building_perimeter env cache addr =
        ([("error", Val.str "All free methods failed"),
          ("details", Val.dict
            [("microsoft", Val.dict (env.microsoft addr)),
             ("google_solar", Val.dict (env.google addr))])],
         (addr, [("error", Val.str "All free methods failed"),
          ("details", Val.dict
            [("microsoft", Val.dict (env.microsoft addr)),
             ("google_solar", Val.dict (env.google addr))])]) :: cache, 2)) := by
  have hfirst : get_best_free_building_perimeter env cache addr =
      attemptMethods env cache addr := by
    simp only [get_best_free_building_perimeter, hmiss]
  rw [hfirst]
  unfold attemptMethods
  refine ⟨fun h1 => by rw [if_pos h1], fun h1 h2 => ?_, fun h1 h2 => ?_⟩
  · rw [if_neg (by simp [h1]), if_pos h2]
  · rw [if_neg (by simp [h1]), if_neg (by simp [h2])]

/-- Witness for C8: both methods fail; the aggregate error carries both
failure dicts under `"details"` and both methods were attempted. -/
theorem estimator_fallback_order_witness :
    alookup ([] : List (String × Dict)) "a" = none ∧
    hasError [("error", Val.str "m")] = true ∧
    get_best_free_building_perimeter
        ⟨fun _ => [("error", Val.str "m")], fun _ => [("error", Val.str "g")]⟩ [] "a" =
      ([("error", Val.str "All free methods failed"),
        ("details", Val.dict
          [("microsoft", Val.dict [("error", Val.str "m")]),
           ("google_solar", Val.dict [("error", Val.str "g")])])],
       ("a", [("error", Val.str "All free methods failed"),
        ("details", Val.dict
          [("microsoft", Val.dict [("error", Val.str "m")]),
           ("google_solar", Val.dict [("error", Val.str "g")])])]) :: [], 2) := by
  refine ⟨rfl, hasError_err _, ?_⟩
  exact (estimator_fallback_order
      ⟨fun _ => [("error", Val.str "m")], fun _ => [("error", Val.str "g")]⟩ [] "a"
      rfl).2.2 (hasError_err _) (hasError_err _)

end Solar
